import Mathlib

/-!
Verification of the map-expectation evaluation core of
`great_expectations/execution_engine/sparkdf_execution_engine.py`.

The Spark dataframe engine is shallowly embedded: a single-column dataframe is a
`List (Option V)` (with `none` for SQL null), a multi-column dataframe is a list
of rows, and the lazily evaluated boolean conditions of Spark SQL are modelled with
three-valued `Option Bool` where Spark semantics demand it.  Spark *actions* (count,
collect) are recorded in a query trace so that claims about which queries run, and
when, can be stated.  Each definition carries a comment naming the Python function
and the line range it embeds.
-/

set_option autoImplicit false

namespace SparkDFEE

/-- Spark SQL three-valued AND (Kleene): false dominates, null is unknown.
Used to model the `&` of Spark `Column` conditions. -/
def sparkAnd (a b : Option Bool) : Option Bool :=
  if a = some false ∨ b = some false then some false
  else if a = some true ∧ b = some true then some true
  else none

/-- Spark `Column.isNotNull()`: never null, true exactly on non-null values. -/
def sparkIsNotNull {V : Type} (v : Option V) : Option Bool :=
  some v.isSome

/-- Spark `Column.isin(value_set)` applied to a value, for a `value_set` that
contains no null (the source raises before building `isin` otherwise): the result
is null when the tested value is null, else a boolean membership test. -/
def sparkIsin {V : Type} [DecidableEq V] (v : Option V) (valueSet : List (Option V)) :
    Option Bool :=
  match v with
  | none => none
  | some x => some (decide (some x ∈ valueSet))

/-- One Spark *action* (a physical query executed against the data) issued while a
map-expectation decorator runs.  `persist`/`cache` are lazy hints, not queries, so
they are not recorded here. -/
inductive QueryEvent where
  | rowCountQ       -- `self.get_row_count()` i.e. `dataframe.count()`
  | nonnullCountQ   -- `self.get_column_nonnull_count(...)` / `nonnull_df.count()`
  | successCountQ   -- `success_df.filter("__success = True").count()`
  | collectQ        -- `unexpected_df.collect()`
deriving DecidableEq, Repr

/-- Python exceptions raised inside the evaluation, abstracted by kind. -/
inductive EvalError where
  | unsupportedValue    -- `ValueError` for a `None` inside a `value_set`
  | unknownIgnoreRowIf  -- `ValueError("Unknown value of ignore_row_if: ...")`
  | funcFailure         -- any other exception raised by the wrapped function
  | analysisException   -- Spark `AnalysisException`: an unresolvable column reference
deriving DecidableEq, Repr

/-- The parsed result-format configuration handed to the decorators.  The decorators
receive user input through `parse_result_format` (repository code not under src/):
per the spec (§3, Result Format) it is a mapping with a `result_format` name in
BOOLEAN_ONLY | BASIC | SUMMARY | COMPLETE and a `partial_unexpected_count`. -/
structure ResultFormat where
  resultFormat : String
  partialUnexpectedCount : Nat
deriving DecidableEq, Repr

/-- Modelled from the spec: the structured report assembled by
`DataAsset._format_map_output`, which is repository code not under src/.
Spec §6 gives the shape `{success, result: {element_count, unexpected_count,
unexpected_percent, partial_unexpected_list, [missing_count, missing_percent,
unexpected_percent_nonmissing, partial_unexpected_counts, ...]}}` with the optional
fields present only for the applicable result-format tiers; a Python dict key that
is absent is a field holding `none` here. -/
structure MapReport (ρ : Type) where
  success : Bool
  element_count : Nat
  unexpected_count : Int
  unexpected_percent : Option ℚ
  partial_unexpected_list : List ρ
  missing_count : Option Nat
  missing_percent : Option ℚ
  unexpected_percent_nonmissing : Option ℚ
  partial_unexpected_counts : Option (List (ρ × Nat))
deriving DecidableEq

/-- Value counts of a list, used for the `partial_unexpected_counts` field. -/
def listValueCounts {ρ : Type} [DecidableEq ρ] (xs : List ρ) : List (ρ × Nat) :=
  xs.dedup.map (fun v => (v, xs.count v))

/-- Modelled from the spec: `DataAsset._format_map_output` (not under src/).
Spec §6: the optional missingness/summary fields are present only for the
applicable result-format tiers (everything beyond `success` and the raw counts is
absent for BOOLEAN_ONLY; `partial_unexpected_counts` appears from SUMMARY up). -/
def format_map_output {ρ : Type} [DecidableEq ρ] (rf : ResultFormat) (success : Bool)
    (elementCount nonnullCount : Nat) (unexpectedCount : Int)
    (unexpectedList : List ρ) : MapReport ρ :=
  if rf.resultFormat = "BOOLEAN_ONLY" then
    { success := success
      element_count := elementCount
      unexpected_count := unexpectedCount
      unexpected_percent := none
      partial_unexpected_list := []
      missing_count := none
      missing_percent := none
      unexpected_percent_nonmissing := none
      partial_unexpected_counts := none }
  else
    { success := success
      element_count := elementCount
      unexpected_count := unexpectedCount
      unexpected_percent :=
        some (if elementCount = 0 then 0 else (unexpectedCount : ℚ) / (elementCount : ℚ))
      partial_unexpected_list := unexpectedList.take rf.partialUnexpectedCount
      missing_count := some (elementCount - nonnullCount)
      missing_percent :=
        some (if elementCount = 0 then 0
              else ((elementCount - nonnullCount : Nat) : ℚ) / (elementCount : ℚ))
      unexpected_percent_nonmissing :=
        some (if nonnullCount = 0 then 0 else (unexpectedCount : ℚ) / (nonnullCount : ℚ))
      partial_unexpected_counts :=
        if rf.resultFormat = "SUMMARY" ∨ rf.resultFormat = "COMPLETE" then
          some (listValueCounts unexpectedList)
        else none }

/-- Embeds the `del return_obj["result"][...]` block of
`column_map_expectation.inner_wrapper` (sparkdf_execution_engine.py lines 193-204):
the four missingness fields are removed from the report of the null / not-null
expectations (`partial_unexpected_counts` inside a `try/except KeyError`). -/
def dropMissingnessFields {ρ : Type} (r : MapReport ρ) : MapReport ρ :=
  { r with
      missing_count := none
      missing_percent := none
      unexpected_percent_nonmissing := none
      partial_unexpected_counts := none }

/-- Modelled from the spec: `DataAsset._calc_map_expectation_success` is repository
code not under src/.  Spec §4.5 step 7: success is true when
`percent_success >= mostly` (or all rows succeed if `mostly` is unset), where
`percent_success = success_count / nonnull_count` and `percent_success = 1.0` when
`nonnull_count == 0` (vacuous success). -/
def calc_map_expectation_success (successCount nonnullCount : Nat)
    (mostly : Option ℚ) : Bool × ℚ :=
  let percentSuccess : ℚ :=
    if nonnullCount = 0 then 1 else (successCount : ℚ) / (nonnullCount : ℚ)
  let success : Bool :=
    match mostly with
    | some m => decide (m ≤ percentSuccess)
    | none => decide (successCount = nonnullCount)
  (success, percentSuccess)

/-- Embeds the limit applied to `unexpected_df` (lines 148-149, 313-314, 470-471):
`if unexpected_count_limit: unexpected_df = unexpected_df.limit(unexpected_count_limit)`.
Python truthiness makes both `None` (COMPLETE) and `0` skip the limit. -/
def pyLimit {ρ : Type} (lim : Option Nat) (xs : List ρ) : List ρ :=
  match lim with
  | none => xs
  | some n => if n = 0 then xs else xs.take n

/-- Embeds the unexpected-evidence computation shared verbatim by the three map
decorators (lines 141-166, 306-339, 464-500): when `unexpected_count == 0` the list
is `[]` and no rows are materialized; otherwise the rows with `__success = False`
are filtered, limited per `pyLimit`, their values collected and, when
`output_strftime_format` is configured, each collected element is reformatted by a
one-to-one map (the dateutil parse / strftime round trip, abstracted as `reformat`
since no claim depends on the concrete date formatting). -/
def computeUnexpectedList {ρ : Type} [DecidableEq ρ] (lim : Option Nat)
    (successDf : List (ρ × Option Bool)) (unexpectedCount : Int)
    (reformat : Option (ρ → ρ)) : List ρ :=
  if unexpectedCount = 0 then []
  else
    let vals := (pyLimit lim (successDf.filter (fun r => r.2 = some false))).map Prod.fst
    match reformat with
    | some f => vals.map f
    | none => vals

/-- Everything a map-decorator evaluation computes, exposed for specification:
the counts, the collected (maybe limited) unexpected list, the success flag and
percent from `_calc_map_expectation_success`, and the formatted report. -/
structure MapEvalOutput (ρ : Type) where
  successVal : Bool
  percentSuccess : ℚ
  elementCount : Nat
  nonnullCount : Nat
  successCount : Nat
  unexpectedCount : Int
  unexpectedList : List ρ
  report : MapReport ρ
deriving DecidableEq

/-- The success-counting / evidence / formatting tail shared by the three map
decorators (lines 137-204, 303-364, 461-527), starting from the `success_df`
returned by the wrapped function:
`success_count = success_df.filter("__success = True").count()`,
`unexpected_count = nonnull_count - success_count` (Python int subtraction, hence
`Int`), the evidence list of `computeUnexpectedList`, `_calc_map_expectation_success`
and `_format_map_output`, and — only when the wrapped function is a null / not-null
expectation (`isNullExp`) — the missingness-field deletion block. -/
def mapEvalCore {ρ : Type} [DecidableEq ρ] (rf : ResultFormat) (mostly : Option ℚ)
    (isNullExp : Bool) (elementCount nonnullCount : Nat)
    (successDf : List (ρ × Option Bool)) (reformat : Option (ρ → ρ)) :
    MapEvalOutput ρ :=
  let successCount := successDf.countP (fun r => r.2 = some true)
  let unexpectedCount : Int := (nonnullCount : Int) - (successCount : Int)
  -- lines 112-115 / 251-254 / 419-422:
  -- COMPLETE means no limit, otherwise `partial_unexpected_count`
  let lim : Option Nat :=
    if rf.resultFormat = "COMPLETE" then none else some rf.partialUnexpectedCount
  let unexpectedList := computeUnexpectedList lim successDf unexpectedCount reformat
  let sp := calc_map_expectation_success successCount nonnullCount mostly
  let report0 := format_map_output rf sp.1 elementCount nonnullCount unexpectedCount
    unexpectedList
  let report := if isNullExp then dropMissingnessFields report0 else report0
  ⟨sp.1, sp.2, elementCount, nonnullCount, successCount, unexpectedCount,
    unexpectedList, report⟩

/-- Result of one decorator invocation: the returned report (or the raised error),
the trace of physical queries executed, and whether the persisted/cached
intermediate view (`col_df` / `cols_df` / `temp_df`) is still pinned when the
invocation exits (the source calls `unpersist()` only on the normal return path;
there is no `try/finally`). -/
structure DecoratorEval (ρ : Type) where
  result : Except EvalError (MapEvalOutput ρ)
  queries : List QueryEvent
  viewPinnedAtExit : Bool

/-- The two expectation names excluded from null filtering
(lines 124-127 and 194-197). -/
def nullExpectationNames : List String :=
  ["expect_column_values_to_not_be_null", "expect_column_values_to_be_null"]

/-- Embeds `MetaSparkDFExecutionEngine.column_map_expectation.inner_wrapper`
(lines 90-208).  `column` is the evaluation column (`col_df` before null
filtering), one entry per row of `self.dataframe`; `func` is the wrapped
expectation body, receiving the (possibly null-filtered) column and returning the
`success_df` rows `(value, __success)` — or raising, modelled by `Except`.
Trace: `persist()` is lazy; `get_row_count` then (except for the null / not-null
expectations) `get_column_nonnull_count` execute before `func` is invoked;
`col_df.unpersist()` runs only after the report is assembled. -/
def evalColumnMapExpectation {V : Type} [DecidableEq V] (funcName : String)
    (func : List (Option V) → Except EvalError (List (Option V × Option Bool)))
    (column : List (Option V)) (mostly : Option ℚ) (rf : ResultFormat)
    (reformat : Option (Option V → Option V)) : DecoratorEval (Option V) :=
  let elementCount := column.length
  let isNullExp := decide (funcName ∈ nullExpectationNames)
  let colDf := if isNullExp then column else column.filter (fun v => v.isSome)
  let nonnullCount := if isNullExp then elementCount else colDf.length
  let preQueries :=
    QueryEvent.rowCountQ :: (if isNullExp then [] else [QueryEvent.nonnullCountQ])
  match func colDf with
  | .error e => ⟨.error e, preQueries, true⟩
  | .ok successDf =>
    let out := mapEvalCore rf mostly isNullExp elementCount nonnullCount successDf
      reformat
    ⟨.ok out,
      preQueries ++ [QueryEvent.successCountQ] ++
        (if out.unexpectedCount = 0 then [] else [QueryEvent.collectQ]),
      false⟩

/-- The `__null_val` policy of `column_pair_map_expectation` (lines 264-290):
which rows are excluded from the non-null denominator, or a `ValueError` for an
unknown `ignore_row_if`. -/
def pairNullFlag {V : Type} (ignoreRowIf : String) :
    Except EvalError ((Option V × Option V) → Bool) :=
  if ignoreRowIf = "both_values_are_missing" then
    .ok (fun r => r.1.isNone && r.2.isNone)
  else if ignoreRowIf = "either_value_is_missing" then
    .ok (fun r => r.1.isNone || r.2.isNone)
  else if ignoreRowIf = "never" then .ok (fun _ => false)
  else .error EvalError.unknownIgnoreRowIf

/-- Embeds `MetaSparkDFExecutionEngine.column_pair_map_expectation.inner_wrapper`
(lines 225-378).  `rows` are the `(column_A, column_B)` value pairs of
`cols_df`; the `monotonically_increasing_id` row key and the `__row` join that the
wrapped functions perform are abstracted away: `func` directly receives the
non-excluded pairs (`nonnull_df`) and returns `success_df` rows
`(pair, __success)`.  The `cols_df.cache()` hint is lazy; `get_row_count` runs
first, the `ignore_row_if` dispatch may raise afterwards (leaving the view
pinned), then `nonnull_df.count()` executes. -/
def evalColumnPairMapExpectation {V : Type} [DecidableEq V]
    (func : List (Option V × Option V) →
      Except EvalError (List ((Option V × Option V) × Option Bool)))
    (rows : List (Option V × Option V)) (mostly : Option ℚ) (ignoreRowIf : String)
    (rf : ResultFormat)
    (reformat : Option ((Option V × Option V) → (Option V × Option V))) :
    DecoratorEval (Option V × Option V) :=
  let elementCount := rows.length
  match pairNullFlag (V := V) ignoreRowIf with
  | .error e => ⟨.error e, [QueryEvent.rowCountQ], true⟩
  | .ok nullVal =>
    let nonnullDf := rows.filter (fun r => !(nullVal r))
    let nonnullCount := nonnullDf.length
    match func nonnullDf with
    | .error e => ⟨.error e, [QueryEvent.rowCountQ, QueryEvent.nonnullCountQ], true⟩
    | .ok successDf =>
      let out := mapEvalCore rf mostly false elementCount nonnullCount successDf
        reformat
      ⟨.ok out,
        [QueryEvent.rowCountQ, QueryEvent.nonnullCountQ, QueryEvent.successCountQ] ++
          (if out.unexpectedCount = 0 then [] else [QueryEvent.collectQ]),
        false⟩

/-- The `__null_val` policy of `multicolumn_map_expectation` (lines 430-453). -/
def multicolumnNullFlag {V : Type} (ignoreRowIf : String) :
    Except EvalError (List (Option V) → Bool) :=
  if ignoreRowIf = "all_values_are_missing" then
    .ok (fun r => r.all (fun v => v.isNone))
  else if ignoreRowIf = "any_value_is_missing" then
    .ok (fun r => r.any (fun v => v.isNone))
  else if ignoreRowIf = "never" then .ok (fun _ => false)
  else .error EvalError.unknownIgnoreRowIf

/-- Embeds `MetaSparkDFExecutionEngine.multicolumn_map_expectation.inner_wrapper`
(lines 395-529).  A row of `temp_df` is the list of its evaluation-column values;
the `OrderedDict` evidence rows are modelled by those value lists.  As in the pair
decorator, `temp_df.cache()` is lazy, `get_row_count` runs first, the
`ignore_row_if` dispatch may raise afterwards, then `nonnull_df.count()`. -/
def evalMulticolumnMapExpectation {V : Type} [DecidableEq V]
    (func : List (List (Option V)) →
      Except EvalError (List (List (Option V) × Option Bool)))
    (rows : List (List (Option V))) (mostly : Option ℚ) (ignoreRowIf : String)
    (rf : ResultFormat) (reformat : Option (List (Option V) → List (Option V))) :
    DecoratorEval (List (Option V)) :=
  let elementCount := rows.length
  match multicolumnNullFlag (V := V) ignoreRowIf with
  | .error e => ⟨.error e, [QueryEvent.rowCountQ], true⟩
  | .ok nullVal =>
    let nonnullDf := rows.filter (fun r => !(nullVal r))
    let nonnullCount := nonnullDf.length
    match func nonnullDf with
    | .error e => ⟨.error e, [QueryEvent.rowCountQ, QueryEvent.nonnullCountQ], true⟩
    | .ok successDf =>
      let out := mapEvalCore rf mostly false elementCount nonnullCount successDf
        reformat
      ⟨.ok out,
        [QueryEvent.rowCountQ, QueryEvent.nonnullCountQ, QueryEvent.successCountQ] ++
          (if out.unexpectedCount = 0 then [] else [QueryEvent.collectQ]),
        false⟩

/-- Embeds the body of `SparkDFExecutionEngine.expect_column_values_to_be_in_set`
(lines 1413-1440): `value_set is None` returns an all-true `__success` column
without looking at any value; `parse_strings_as_datetimes` maps the column and the
value set through `dateutil.parse` (abstracted one-to-one as `parseS`, which
leaves `None` values untouched on both sides); a `None` inside the value set
raises `ValueError`; otherwise `__success = column[0].isin(value_set)`. -/
def expect_column_values_to_be_in_set {V : Type} [DecidableEq V]
    (valueSet : Option (List (Option V))) (parseS : Option (V → V))
    (rows : List (Option V)) :
    Except EvalError (List (Option V × Option Bool)) :=
  match valueSet with
  | none => .ok (rows.map (fun v => (v, some true)))
  | some vs =>
    let rows := match parseS with
      | some p => rows.map (Option.map p)
      | none => rows
    let vs := match parseS with
      | some p => vs.map (Option.map p)
      | none => vs
    if none ∈ vs then .error EvalError.unsupportedValue
    else .ok (rows.map (fun v => (v, sparkIsin v vs)))

/-- Embeds the body of `SparkDFExecutionEngine.expect_column_values_to_not_be_in_set`
(lines 1444-1462): a `None` inside the value set raises `ValueError`; otherwise
`__success = ~column[0].isin(value_set)` (Spark `~` keeps null as null). -/
def expect_column_values_to_not_be_in_set {V : Type} [DecidableEq V]
    (valueSet : List (Option V)) (rows : List (Option V)) :
    Except EvalError (List (Option V × Option Bool)) :=
  if none ∈ valueSet then .error EvalError.unsupportedValue
  else .ok (rows.map (fun v => (v, Option.map not (sparkIsin v valueSet))))

/-- Embeds `SparkDFExecutionEngine.expect_column_values_to_be_null` (lines 1671-1680):
`__success = column[0].isNull()` (never null). -/
def expect_column_values_to_be_null {V : Type} (rows : List (Option V)) :
    Except EvalError (List (Option V × Option Bool)) :=
  .ok (rows.map (fun v => (v, some v.isNone)))

/-- Embeds `SparkDFExecutionEngine.expect_column_values_to_not_be_null`
(lines 1658-1667): `__success = column[0].isNotNull()`. -/
def expect_column_values_to_not_be_null {V : Type} (rows : List (Option V)) :
    Except EvalError (List (Option V × Option Bool)) :=
  .ok (rows.map (fun v => (v, sparkIsNotNull v)))

/-!
## Domain resolution (`get_domain_dataframe`, lines 808-877)

A multi-column dataframe with named columns is a list of rows, each row an
association list from column name to (nullable) value.  Only the
column-projection / null-filter tail of `get_domain_dataframe` (lines 864-873) is
modelled; the preceding batch selection, `table` rejection and `row_condition`
filtering (lines 826-862) feed it an already-selected `data` dataframe and no
claim depends on them.
-/

/-- One dataframe row: column name to nullable value. -/
abbrev SparkRow (V : Type) := List (String × Option V)

/-- A named-column dataframe. -/
structure SparkDF (V : Type) where
  rows : List (SparkRow V)
deriving DecidableEq

/-- Value of column `c` in a row (`none` for SQL null). -/
def rowLookup {V : Type} (r : SparkRow V) (c : String) : Option V :=
  match r.find? (fun p => p.1 = c) with
  | some p => p.2
  | none => none

/-- Set (overwrite or append) column `c` of a row, as Spark `withColumn` does. -/
def rowSetCol {V : Type} (r : SparkRow V) (c : String) (v : Option V) : SparkRow V :=
  if r.any (fun p => p.1 = c) then
    r.map (fun p => if p.1 = c then (c, v) else p)
  else r ++ [(c, v)]

/-- The success-path semantics of Spark `data.withColumn(name, F.col(source))`,
applied only after the `F.col source` reference has been checked to resolve to
the literal column `source` (see `colResolves`): the target `name` of
`withColumn` is always taken literally. -/
def dfWithColumn {V : Type} (df : SparkDF V) (name source : String) : SparkDF V :=
  ⟨df.rows.map (fun r => rowSetCol r name (rowLookup r source))⟩

/-- Spark `data.filter(F.col(c).isNotNull())`, on an already-resolved column. -/
def dfFilterNotNull {V : Type} (df : SparkDF V) (c : String) : SparkDF V :=
  ⟨df.rows.filter (fun r => (rowLookup r c).isSome)⟩

/-- Whether the reference `F.col name` resolves against this dataframe at
analysis time.  Spark parses an unquoted dot in `name` as nested-field access
and a backtick as quoting syntax, so against the flat (struct-free) dataframes
modelled here such a raw name never resolves to a literal dotted column — the
plan analysis raises `AnalysisException`.  That is exactly why the map
decorators rename columns first ("Rename column so we only have to handle dot
notation here", line 101) and why `_get_eval_column_name` exists.  A clean name
resolves iff a column of that exact name exists in every row. -/
def colResolves {V : Type} (df : SparkDF V) (name : String) : Bool :=
  !(name.data.any (fun ch => ch = '.' || ch = '\x60')) &&
    df.rows.all (fun r => r.any (fun p => p.1 = name))

/-- Python `s.replace(old, new)` for a single-character pattern. -/
def pyCharReplace (s : String) (c : Char) (r : String) : String :=
  String.mk (s.data.map (fun ch => if ch = c then r.data else [ch])).flatten

/-- Embeds `SparkDFExecutionEngine._get_eval_column_name` (lines 875-877):
`"__eval_col_" + column.replace(".", "__").replace("\x60", "_")`. -/
def get_eval_column_name (column : String) : String :=
  "__eval_col_" ++ pyCharReplace (pyCharReplace column '.' "__") '\x60' "_"

/-- Embeds the column-handling tail of `SparkDFExecutionEngine.get_domain_dataframe`
(lines 864-873).  Note the source sets `eval_column = column` — the call to
`self._get_eval_column_name(column)` on line 868 is commented out — so the column
is (re)projected under its *original* name; `if column:` is Python truthiness, so
an empty string behaves like an absent column.  Spark analyzes the
`withColumn(eval_column, F.col(column))` plan eagerly on line 870, so when the
raw `F.col(column)` reference does not resolve (a dotted or backticked name, or
a missing column) the call raises `AnalysisException` there instead of
returning a view. -/
def get_domain_dataframe {V : Type} (data : SparkDF V) (column : Option String)
    (filterColumnIsnull : Bool) : Except EvalError (SparkDF V) :=
  match column with
  | none => .ok data
  | some c =>
    if c = "" then .ok data
    else if colResolves data c then
      let evalColumn := c
      let d := dfWithColumn data evalColumn c
      .ok (if filterColumnIsnull then dfFilterNotNull d evalColumn else d)
    else .error EvalError.analysisException

/-!
## Condition-metric registration (`column_map_metric`, lines 1009-1114)
-/

/-- Embeds the condition built by
`SparkDFExecutionEngine.column_map_metric.outer.inner_func` (lines 1026-1057), as
the per-value meaning of the Spark `Column` expression it returns: the wrapped
provider's condition `metricFn`, conjoined — when `filter_column_isnull` is
true — with `F.col(eval_col).isNotNull()` via Spark's three-valued `&`.
(The `get_domain_dataframe` call and kwargs plumbing around it do not alter the
returned condition and are not modelled.) -/
def columnMapMetricCondition {V : Type} (filterColumnIsnull : Bool)
    (metricFn : Option V → Option Bool) (v : Option V) : Option Bool :=
  if filterColumnIsnull then sparkAnd (sparkIsNotNull v) (metricFn v)
  else metricFn v

/-!
## Bundled batch resolution (`batch_resolve`, lines 1116-1178)

Metric identities are abstract `Nat`s; domain kwargs are association lists of
string keys and values, standing for the `IDDict` whose deterministic `to_id`
serves as the grouping key.  The only bundlable metric registered in this module
is `<name>.count`, whose provider `_column_map_count` (lines 879-901) returns the
pair `(metrics[base], domain_kwargs minus "column")`; accordingly each pending
entry carries its raw `metric_domain_kwargs` and `batch_resolve` groups by the
column-stripped kwargs the provider hands back.  The external engine's single-pass
aggregation `df.agg(*sums).collect()` is a parameter `agg` returning its result
rows; issuing `agg` once per group is what the model counts.
-/

/-- Domain kwargs as a deterministic association list. -/
abbrev Kwargs := List (String × String)

/-- The `domain_kwargs` computed by `_column_map_count` (lines 898-900):
`{k: v for (k, v) in metric_domain_kwargs.items() if k != "column"}`. -/
def stripColumn (kw : Kwargs) : Kwargs :=
  kw.filter (fun p => p.1 ≠ "column")

/-- One pending entry of `resolve_batch`: the metric identity, the provider's
`_can_be_bundled` flag, the column condition the provider derives, and the metric
domain kwargs. -/
structure ResolveEntry (C : Type) where
  id : Nat
  canBeBundled : Bool
  condition : C
  metricDomainKwargs : Kwargs

/-- One group of the `aggregates` dictionary (lines 1146-1153). -/
structure AggGroup (C : Type) where
  key : Kwargs
  conditions : List C
  ids : List Nat

/-- Append an entry to the group keyed by `key`, creating the group at the end on
first sight — Python dicts preserve insertion order. -/
def insertAggregate {C : Type} (gs : List (AggGroup C)) (key : Kwargs) (c : C)
    (i : Nat) : List (AggGroup C) :=
  match gs with
  | [] => [⟨key, [c], [i]⟩]
  | g :: rest =>
    if g.key = key then ⟨g.key, g.conditions ++ [c], g.ids ++ [i]⟩ :: rest
    else g :: insertAggregate rest key c i

/-- The first loop of `batch_resolve` (lines 1135-1153): each pending entry must
be bundlable (`assert metric_provider._can_be_bundled`, failing fast with the
quoted message), its provider is invoked, and its condition and id are appended to
the group of its column-stripped domain kwargs. -/
def collectAggregates {C : Type} :
    List (ResolveEntry C) → List (AggGroup C) → Except String (List (AggGroup C))
  | [], gs => .ok gs
  | e :: rest, gs =>
    if e.canBeBundled then
      collectAggregates rest
        (insertAggregate gs (stripColumn e.metricDomainKwargs) e.condition e.id)
    else .error "batch_resolve only supports metrics that support bundled computation"

/-- The second loop of `batch_resolve` (lines 1154-1176): for each domain group,
issue ONE aggregation query (`df.agg(*sums).collect()`, the `agg` parameter),
require exactly one result row (`assert len(res) == 1`), require as many aggregate
values as pending ids (`assert len(aggregate["ids"]) == len(res[0])`), and assign
`metrics[id] = res[0][idx]`.  The returned `Nat` counts the aggregation queries
issued. -/
def resolveAggregates {C : Type} (agg : Kwargs → List C → List (List Int)) :
    List (AggGroup C) → Except String (List (Nat × Int) × Nat)
  | [] => .ok ([], 0)
  | g :: rest =>
    match agg g.key g.conditions with
    | [row] =>
      if row.length = g.ids.length then
        match resolveAggregates agg rest with
        | .ok (m, q) => .ok (g.ids.zip row ++ m, q + 1)
        | .error s => .error s
      else .error "unexpected number of metrics returned"
    | _ => .error "all bundle-computed metrics must be single-value statistics"

/-- Embeds `SparkDFExecutionEngine.batch_resolve` (lines 1116-1178), returning the
metric assignments together with the number of aggregation queries issued.
(The incremental mutation of the shared `metrics` dict is returned all-or-nothing
here; no claim concerns partially written metrics.) -/
def batch_resolve {C : Type} (agg : Kwargs → List C → List (List Int))
    (entries : List (ResolveEntry C)) : Except String (List (Nat × Int) × Nat) :=
  match collectAggregates entries [] with
  | .error s => .error s
  | .ok gs => resolveAggregates agg gs

/-!
## Shared lemmas
-/

theorem mapEvalCore_nonnullCount {ρ : Type} [DecidableEq ρ] (rf : ResultFormat)
    (mostly : Option ℚ) (b : Bool) (ec nc : Nat) (sdf : List (ρ × Option Bool))
    (refm : Option (ρ → ρ)) :
    (mapEvalCore rf mostly b ec nc sdf refm).nonnullCount = nc := rfl

theorem mapEvalCore_elementCount {ρ : Type} [DecidableEq ρ] (rf : ResultFormat)
    (mostly : Option ℚ) (b : Bool) (ec nc : Nat) (sdf : List (ρ × Option Bool))
    (refm : Option (ρ → ρ)) :
    (mapEvalCore rf mostly b ec nc sdf refm).elementCount = ec := rfl

theorem mapEvalCore_successCount {ρ : Type} [DecidableEq ρ] (rf : ResultFormat)
    (mostly : Option ℚ) (b : Bool) (ec nc : Nat) (sdf : List (ρ × Option Bool))
    (refm : Option (ρ → ρ)) :
    (mapEvalCore rf mostly b ec nc sdf refm).successCount =
      sdf.countP (fun r => r.2 = some true) := rfl

theorem mapEvalCore_count_invariant {ρ : Type} [DecidableEq ρ] (rf : ResultFormat)
    (mostly : Option ℚ) (b : Bool) (ec nc : Nat) (sdf : List (ρ × Option Bool))
    (refm : Option (ρ → ρ)) :
    (mapEvalCore rf mostly b ec nc sdf refm).unexpectedCount =
      ((mapEvalCore rf mostly b ec nc sdf refm).nonnullCount : Int) -
        ((mapEvalCore rf mostly b ec nc sdf refm).successCount : Int) := rfl

theorem mapEvalCore_unexpectedList_eq {ρ : Type} [DecidableEq ρ] (rf : ResultFormat)
    (mostly : Option ℚ) (b : Bool) (ec nc : Nat) (sdf : List (ρ × Option Bool))
    (refm : Option (ρ → ρ)) :
    (mapEvalCore rf mostly b ec nc sdf refm).unexpectedList =
      computeUnexpectedList
        (if rf.resultFormat = "COMPLETE" then none else some rf.partialUnexpectedCount)
        sdf (mapEvalCore rf mostly b ec nc sdf refm).unexpectedCount refm := rfl

theorem mapEvalCore_zero_empty {ρ : Type} [DecidableEq ρ] (rf : ResultFormat)
    (mostly : Option ℚ) (b : Bool) (ec nc : Nat) (sdf : List (ρ × Option Bool))
    (refm : Option (ρ → ρ))
    (h : (mapEvalCore rf mostly b ec nc sdf refm).unexpectedCount = 0) :
    (mapEvalCore rf mostly b ec nc sdf refm).unexpectedList = [] := by
  rw [mapEvalCore_unexpectedList_eq, computeUnexpectedList, if_pos h]

theorem format_map_output_unexpected_count {ρ : Type} [DecidableEq ρ]
    (rf : ResultFormat) (s : Bool) (ec nc : Nat) (uc : Int) (lst : List ρ) :
    (format_map_output rf s ec nc uc lst).unexpected_count = uc := by
  unfold format_map_output
  split <;> rfl

theorem dropMissingnessFields_unexpected_count {ρ : Type} (r : MapReport ρ) :
    (dropMissingnessFields r).unexpected_count = r.unexpected_count := rfl

theorem mapEvalCore_report_unexpected_count {ρ : Type} [DecidableEq ρ]
    (rf : ResultFormat) (mostly : Option ℚ) (b : Bool) (ec nc : Nat)
    (sdf : List (ρ × Option Bool)) (refm : Option (ρ → ρ)) :
    (mapEvalCore rf mostly b ec nc sdf refm).report.unexpected_count =
      (mapEvalCore rf mostly b ec nc sdf refm).unexpectedCount := by
  show (if b then dropMissingnessFields _ else _).unexpected_count = _
  cases b
  · exact format_map_output_unexpected_count ..
  · rw [if_pos rfl, dropMissingnessFields_unexpected_count]
    exact format_map_output_unexpected_count ..

theorem evalColumnMap_ok_spec {V : Type} [DecidableEq V] {funcName : String}
    {func : List (Option V) → Except EvalError (List (Option V × Option Bool))}
    {column : List (Option V)} {mostly : Option ℚ} {rf : ResultFormat}
    {reformat : Option (Option V → Option V)}
    {sdf : List (Option V × Option Bool)}
    (hf : func (if decide (funcName ∈ nullExpectationNames) then column
        else column.filter (fun v => v.isSome)) = .ok sdf) :
    evalColumnMapExpectation funcName func column mostly rf reformat =
      ⟨.ok (mapEvalCore rf mostly (decide (funcName ∈ nullExpectationNames))
          column.length
          (if decide (funcName ∈ nullExpectationNames) then column.length
            else (column.filter (fun v => v.isSome)).length) sdf reformat),
        (QueryEvent.rowCountQ ::
          (if decide (funcName ∈ nullExpectationNames) then []
            else [QueryEvent.nonnullCountQ])) ++ [QueryEvent.successCountQ] ++
          (if (mapEvalCore rf mostly (decide (funcName ∈ nullExpectationNames))
              column.length
              (if decide (funcName ∈ nullExpectationNames) then column.length
                else (column.filter (fun v => v.isSome)).length) sdf
              reformat).unexpectedCount = 0 then []
            else [QueryEvent.collectQ]),
        false⟩ := by
  simp only [evalColumnMapExpectation]
  rw [hf]
  cases hb : decide (funcName ∈ nullExpectationNames) <;> simp [hb]

theorem evalColumnMap_error_spec {V : Type} [DecidableEq V] {funcName : String}
    {func : List (Option V) → Except EvalError (List (Option V × Option Bool))}
    {column : List (Option V)} {mostly : Option ℚ} {rf : ResultFormat}
    {reformat : Option (Option V → Option V)} {e : EvalError}
    (hf : func (if decide (funcName ∈ nullExpectationNames) then column
        else column.filter (fun v => v.isSome)) = .error e) :
    evalColumnMapExpectation funcName func column mostly rf reformat =
      ⟨.error e,
        QueryEvent.rowCountQ ::
          (if decide (funcName ∈ nullExpectationNames) then []
            else [QueryEvent.nonnullCountQ]),
        true⟩ := by
  simp only [evalColumnMapExpectation]
  rw [hf]

theorem evalColumnPairMap_ok_spec {V : Type} [DecidableEq V]
    {func : List (Option V × Option V) →
      Except EvalError (List ((Option V × Option V) × Option Bool))}
    {rows : List (Option V × Option V)} {mostly : Option ℚ} {ignoreRowIf : String}
    {rf : ResultFormat}
    {reformat : Option ((Option V × Option V) → (Option V × Option V))}
    {nullVal : (Option V × Option V) → Bool}
    {sdf : List ((Option V × Option V) × Option Bool)}
    (hp : pairNullFlag (V := V) ignoreRowIf = .ok nullVal)
    (hf : func (rows.filter (fun r => !(nullVal r))) = .ok sdf) :
    evalColumnPairMapExpectation func rows mostly ignoreRowIf rf reformat =
      ⟨.ok (mapEvalCore rf mostly false rows.length
          (rows.filter (fun r => !(nullVal r))).length sdf reformat),
        [QueryEvent.rowCountQ, QueryEvent.nonnullCountQ, QueryEvent.successCountQ] ++
          (if (mapEvalCore rf mostly false rows.length
              (rows.filter (fun r => !(nullVal r))).length sdf
              reformat).unexpectedCount = 0 then []
            else [QueryEvent.collectQ]),
        false⟩ := by
  simp only [evalColumnPairMapExpectation, hp]
  rw [hf]

theorem evalColumnPairMap_policy_error_spec {V : Type} [DecidableEq V]
    {func : List (Option V × Option V) →
      Except EvalError (List ((Option V × Option V) × Option Bool))}
    {rows : List (Option V × Option V)} {mostly : Option ℚ} {ignoreRowIf : String}
    {rf : ResultFormat}
    {reformat : Option ((Option V × Option V) → (Option V × Option V))}
    {e : EvalError} (hp : pairNullFlag (V := V) ignoreRowIf = .error e) :
    evalColumnPairMapExpectation func rows mostly ignoreRowIf rf reformat =
      ⟨.error e, [QueryEvent.rowCountQ], true⟩ := by
  simp only [evalColumnPairMapExpectation, hp]

theorem evalColumnPairMap_func_error_spec {V : Type} [DecidableEq V]
    {func : List (Option V × Option V) →
      Except EvalError (List ((Option V × Option V) × Option Bool))}
    {rows : List (Option V × Option V)} {mostly : Option ℚ} {ignoreRowIf : String}
    {rf : ResultFormat}
    {reformat : Option ((Option V × Option V) → (Option V × Option V))}
    {nullVal : (Option V × Option V) → Bool} {e : EvalError}
    (hp : pairNullFlag (V := V) ignoreRowIf = .ok nullVal)
    (hf : func (rows.filter (fun r => !(nullVal r))) = .error e) :
    evalColumnPairMapExpectation func rows mostly ignoreRowIf rf reformat =
      ⟨.error e, [QueryEvent.rowCountQ, QueryEvent.nonnullCountQ], true⟩ := by
  simp only [evalColumnPairMapExpectation, hp]
  rw [hf]

theorem evalMulticolumnMap_ok_spec {V : Type} [DecidableEq V]
    {func : List (List (Option V)) →
      Except EvalError (List (List (Option V) × Option Bool))}
    {rows : List (List (Option V))} {mostly : Option ℚ} {ignoreRowIf : String}
    {rf : ResultFormat} {reformat : Option (List (Option V) → List (Option V))}
    {nullVal : List (Option V) → Bool} {sdf : List (List (Option V) × Option Bool)}
    (hp : multicolumnNullFlag (V := V) ignoreRowIf = .ok nullVal)
    (hf : func (rows.filter (fun r => !(nullVal r))) = .ok sdf) :
    evalMulticolumnMapExpectation func rows mostly ignoreRowIf rf reformat =
      ⟨.ok (mapEvalCore rf mostly false rows.length
          (rows.filter (fun r => !(nullVal r))).length sdf reformat),
        [QueryEvent.rowCountQ, QueryEvent.nonnullCountQ, QueryEvent.successCountQ] ++
          (if (mapEvalCore rf mostly false rows.length
              (rows.filter (fun r => !(nullVal r))).length sdf
              reformat).unexpectedCount = 0 then []
            else [QueryEvent.collectQ]),
        false⟩ := by
  simp only [evalMulticolumnMapExpectation, hp]
  rw [hf]

theorem evalMulticolumnMap_policy_error_spec {V : Type} [DecidableEq V]
    {func : List (List (Option V)) →
      Except EvalError (List (List (Option V) × Option Bool))}
    {rows : List (List (Option V))} {mostly : Option ℚ} {ignoreRowIf : String}
    {rf : ResultFormat} {reformat : Option (List (Option V) → List (Option V))}
    {e : EvalError} (hp : multicolumnNullFlag (V := V) ignoreRowIf = .error e) :
    evalMulticolumnMapExpectation func rows mostly ignoreRowIf rf reformat =
      ⟨.error e, [QueryEvent.rowCountQ], true⟩ := by
  simp only [evalMulticolumnMapExpectation, hp]

theorem evalMulticolumnMap_func_error_spec {V : Type} [DecidableEq V]
    {func : List (List (Option V)) →
      Except EvalError (List (List (Option V) × Option Bool))}
    {rows : List (List (Option V))} {mostly : Option ℚ} {ignoreRowIf : String}
    {rf : ResultFormat} {reformat : Option (List (Option V) → List (Option V))}
    {nullVal : List (Option V) → Bool} {e : EvalError}
    (hp : multicolumnNullFlag (V := V) ignoreRowIf = .ok nullVal)
    (hf : func (rows.filter (fun r => !(nullVal r))) = .error e) :
    evalMulticolumnMapExpectation func rows mostly ignoreRowIf rf reformat =
      ⟨.error e, [QueryEvent.rowCountQ, QueryEvent.nonnullCountQ], true⟩ := by
  simp only [evalMulticolumnMapExpectation, hp]
  rw [hf]

/-!
## Claim theorems
-/

/-- C1: for every column-map, column-pair-map and multicolumn-map expectation
evaluation, the reported `unexpected_count` equals `nonnull_count - success_count`,
and whenever `unexpected_count` is zero the unexpected-evidence list is empty and
the row-materialization (`collect`) query is never issued. -/
theorem count_invariant_map_decorators :
    (∀ (V : Type) [DecidableEq V] (funcName : String)
        (func : List (Option V) → Except EvalError (List (Option V × Option Bool)))
        (column : List (Option V)) (mostly : Option ℚ) (rf : ResultFormat)
        (reformat : Option (Option V → Option V)) (out : MapEvalOutput (Option V)),
      (evalColumnMapExpectation funcName func column mostly rf reformat).result =
          .ok out →
        out.unexpectedCount = (out.nonnullCount : Int) - (out.successCount : Int) ∧
        out.report.unexpected_count = out.unexpectedCount ∧
        (out.unexpectedCount = 0 → out.unexpectedList = [] ∧
          QueryEvent.collectQ ∉
            (evalColumnMapExpectation funcName func column mostly rf reformat).queries)) ∧
    (∀ (V : Type) [DecidableEq V]
        (func : List (Option V × Option V) →
          Except EvalError (List ((Option V × Option V) × Option Bool)))
        (rows : List (Option V × Option V)) (mostly : Option ℚ)
        (ignoreRowIf : String) (rf : ResultFormat)
        (reformat : Option ((Option V × Option V) → (Option V × Option V)))
        (out : MapEvalOutput (Option V × Option V)),
      (evalColumnPairMapExpectation func rows mostly ignoreRowIf rf reformat).result =
          .ok out →
        out.unexpectedCount = (out.nonnullCount : Int) - (out.successCount : Int) ∧
        out.report.unexpected_count = out.unexpectedCount ∧
        (out.unexpectedCount = 0 → out.unexpectedList = [] ∧
          QueryEvent.collectQ ∉
            (evalColumnPairMapExpectation func rows mostly ignoreRowIf rf
              reformat).queries)) ∧
    (∀ (V : Type) [DecidableEq V]
        (func : List (List (Option V)) →
          Except EvalError (List (List (Option V) × Option Bool)))
        (rows : List (List (Option V))) (mostly : Option ℚ) (ignoreRowIf : String)
        (rf : ResultFormat) (reformat : Option (List (Option V) → List (Option V)))
        (out : MapEvalOutput (List (Option V))),
      (evalMulticolumnMapExpectation func rows mostly ignoreRowIf rf
          reformat).result = .ok out →
        out.unexpectedCount = (out.nonnullCount : Int) - (out.successCount : Int) ∧
        out.report.unexpected_count = out.unexpectedCount ∧
        (out.unexpectedCount = 0 → out.unexpectedList = [] ∧
          QueryEvent.collectQ ∉
            (evalMulticolumnMapExpectation func rows mostly ignoreRowIf rf
              reformat).queries)) := by
  refine ⟨?_, ?_, ?_⟩
  · intro V inst funcName func column mostly rf reformat out h
    rcases hfe : func (if decide (funcName ∈ nullExpectationNames) then column
        else column.filter (fun v => v.isSome)) with e | sdf
    · rw [evalColumnMap_error_spec hfe] at h
      exact absurd h (by simp)
    · rw [evalColumnMap_ok_spec hfe] at h
      simp only [Except.ok.injEq] at h
      subst h
      refine ⟨mapEvalCore_count_invariant .., mapEvalCore_report_unexpected_count ..,
        fun h0 => ⟨mapEvalCore_zero_empty _ _ _ _ _ _ _ h0, ?_⟩⟩
      rw [evalColumnMap_ok_spec hfe]
      cases hb : decide (funcName ∈ nullExpectationNames) <;>
        simp only [hb] at h0 <;> simp at h0 <;> simp [h0, hb]
  · intro V inst func rows mostly ignoreRowIf rf reformat out h
    rcases hpe : pairNullFlag (V := V) ignoreRowIf with e | nullVal
    · rw [evalColumnPairMap_policy_error_spec hpe] at h
      exact absurd h (by simp)
    · rcases hfe : func (rows.filter (fun r => !(nullVal r))) with e | sdf
      · rw [evalColumnPairMap_func_error_spec hpe hfe] at h
        exact absurd h (by simp)
      · rw [evalColumnPairMap_ok_spec hpe hfe] at h
        simp only [Except.ok.injEq] at h
        subst h
        refine ⟨mapEvalCore_count_invariant ..,
          mapEvalCore_report_unexpected_count ..,
          fun h0 => ⟨mapEvalCore_zero_empty _ _ _ _ _ _ _ h0, ?_⟩⟩
        rw [evalColumnPairMap_ok_spec hpe hfe]
        simp [h0]
  · intro V inst func rows mostly ignoreRowIf rf reformat out h
    rcases hpe : multicolumnNullFlag (V := V) ignoreRowIf with e | nullVal
    · rw [evalMulticolumnMap_policy_error_spec hpe] at h
      exact absurd h (by simp)
    · rcases hfe : func (rows.filter (fun r => !(nullVal r))) with e | sdf
      · rw [evalMulticolumnMap_func_error_spec hpe hfe] at h
        exact absurd h (by simp)
      · rw [evalMulticolumnMap_ok_spec hpe hfe] at h
        simp only [Except.ok.injEq] at h
        subst h
        refine ⟨mapEvalCore_count_invariant ..,
          mapEvalCore_report_unexpected_count ..,
          fun h0 => ⟨mapEvalCore_zero_empty _ _ _ _ _ _ _ h0, ?_⟩⟩
        rw [evalMulticolumnMap_ok_spec hpe hfe]
        simp [h0]

/-- C1 witness: the invariant instantiated on a concrete `be_in_set` evaluation
over the column `[1, null]` with value set `{1}`. -/
theorem count_invariant_map_decorators_witness :
    (evalColumnMapExpectation "expect_column_values_to_be_in_set"
        (expect_column_values_to_be_in_set (some [some 1]) none)
        [some 1, none] none ⟨"BASIC", 20⟩ none).result =
      .ok (mapEvalCore ⟨"BASIC", 20⟩ none false 2 1
        [((some 1 : Option Nat), some true)] none) ∧
    ((mapEvalCore ⟨"BASIC", 20⟩ none false 2 1
        [((some 1 : Option Nat), some true)] none).unexpectedCount =
      ((mapEvalCore ⟨"BASIC", 20⟩ none false 2 1
          [((some 1 : Option Nat), some true)] none).nonnullCount : Int) -
        ((mapEvalCore ⟨"BASIC", 20⟩ none false 2 1
            [((some 1 : Option Nat), some true)] none).successCount : Int) ∧
      (mapEvalCore ⟨"BASIC", 20⟩ none false 2 1
          [((some 1 : Option Nat), some true)] none).report.unexpected_count =
        (mapEvalCore ⟨"BASIC", 20⟩ none false 2 1
          [((some 1 : Option Nat), some true)] none).unexpectedCount ∧
      ((mapEvalCore ⟨"BASIC", 20⟩ none false 2 1
            [((some 1 : Option Nat), some true)] none).unexpectedCount = 0 →
        (mapEvalCore ⟨"BASIC", 20⟩ none false 2 1
            [((some 1 : Option Nat), some true)] none).unexpectedList = [] ∧
        QueryEvent.collectQ ∉
          (evalColumnMapExpectation "expect_column_values_to_be_in_set"
            (expect_column_values_to_be_in_set (some [some 1]) none)
            [some 1, none] none ⟨"BASIC", 20⟩ none).queries)) :=
  ⟨rfl, count_invariant_map_decorators.1 Nat "expect_column_values_to_be_in_set"
    (expect_column_values_to_be_in_set (some [some 1]) none)
    [some 1, none] none ⟨"BASIC", 20⟩ none
    (mapEvalCore ⟨"BASIC", 20⟩ none false 2 1
      [((some 1 : Option Nat), some true)] none) rfl⟩

theorem countP_map_all_true {ρ : Type} (X : List ρ) :
    (X.map (fun v => (v, (some true : Option Bool)))).countP
      (fun r => r.2 = some true) = X.length := by
  rw [List.countP_map]
  simp [Function.comp]

theorem mapEvalCore_all_true_spec {ρ : Type} [DecidableEq ρ] (rf : ResultFormat)
    (mostly : Option ℚ) (b : Bool) (ec : Nat) (X : List ρ) (refm : Option (ρ → ρ))
    (hm : ∀ m, mostly = some m → m ≤ 1) :
    (mapEvalCore rf mostly b ec X.length
      (X.map (fun v => (v, some true))) refm).successVal = true ∧
    (mapEvalCore rf mostly b ec X.length
      (X.map (fun v => (v, some true))) refm).unexpectedCount = 0 ∧
    (mapEvalCore rf mostly b ec X.length
      (X.map (fun v => (v, some true))) refm).unexpectedList = [] := by
  have hsc : (mapEvalCore rf mostly b ec X.length
      (X.map (fun v => (v, some true))) refm).successCount = X.length :=
    countP_map_all_true X
  have huc : (mapEvalCore rf mostly b ec X.length
      (X.map (fun v => (v, some true))) refm).unexpectedCount = 0 := by
    rw [mapEvalCore_count_invariant, mapEvalCore_nonnullCount, hsc, sub_self]
  refine ⟨?_, huc, mapEvalCore_zero_empty _ _ _ _ _ _ _ huc⟩
  show (calc_map_expectation_success
    ((X.map (fun v => (v, some true))).countP (fun r => r.2 = some true))
    X.length mostly).1 = true
  rw [countP_map_all_true X]
  unfold calc_map_expectation_success
  cases mostly with
  | none => simp
  | some m =>
    simp only [decide_eq_true_iff]
    by_cases h0 : X.length = 0
    · rw [if_pos h0]
      exact hm m rfl
    · rw [if_neg h0, div_self (Nat.cast_ne_zero.mpr h0)]
      exact hm m rfl

/-- C3: a condition metric registered through `column_map_metric` with
`filter_column_isnull=True` returns the three-valued conjunction of
`column.isNotNull()` and the base provider's condition, and is therefore `false`
(not null, not true) on every null-valued row, whatever the base provider does. -/
theorem null_filter_wrapper_condition :
    ∀ (V : Type) (metricFn : Option V → Option Bool),
      (∀ v, columnMapMetricCondition true metricFn v =
        sparkAnd (sparkIsNotNull v) (metricFn v)) ∧
      columnMapMetricCondition true metricFn none = some false := by
  intro V metricFn
  refine ⟨fun v => rfl, ?_⟩
  show sparkAnd (sparkIsNotNull (none : Option V)) (metricFn none) = some false
  simp [sparkAnd, sparkIsNotNull]

/-- C4: in every map-style evaluation, `percent_success = success_count /
nonnull_count` (defined as `1` when `nonnull_count = 0`), success is `true`
exactly when `percent_success >= mostly`, and — with `mostly` unset — exactly when
every counted row succeeded. -/
theorem mostly_threshold_success_law :
    ∀ (ρ : Type) [DecidableEq ρ] (rf : ResultFormat) (mostly : Option ℚ)
      (isNullExp : Bool) (ec nc : Nat) (sdf : List (ρ × Option Bool))
      (refm : Option (ρ → ρ)),
      (mapEvalCore rf mostly isNullExp ec nc sdf refm).percentSuccess =
        (if nc = 0 then 1 else
          ((mapEvalCore rf mostly isNullExp ec nc sdf refm).successCount : ℚ) /
            (nc : ℚ)) ∧
      (∀ m, mostly = some m →
        ((mapEvalCore rf mostly isNullExp ec nc sdf refm).successVal = true ↔
          m ≤ (mapEvalCore rf mostly isNullExp ec nc sdf refm).percentSuccess)) ∧
      (mostly = none →
        ((mapEvalCore rf mostly isNullExp ec nc sdf refm).successVal = true ↔
          (mapEvalCore rf mostly isNullExp ec nc sdf refm).successCount = nc)) := by
  intro ρ inst rf mostly isNullExp ec nc sdf refm
  refine ⟨rfl, ?_, ?_⟩
  · intro m hm
    subst hm
    exact decide_eq_true_iff
  · intro hm
    subst hm
    exact decide_eq_true_iff

/-- C4 witness: the `mostly` threshold law instantiated at a concrete evaluation
with `mostly = 1/2` over two counted rows, one of which succeeds. -/
theorem mostly_threshold_success_law_witness :
    ((some (1/2 : ℚ) : Option ℚ) = some (1/2 : ℚ)) ∧
    ((mapEvalCore ⟨"BASIC", 20⟩ (some (1/2 : ℚ)) false 2 2
        [((some 1 : Option Nat), some true), (some 2, some false)] none).successVal =
        true ↔
      (1/2 : ℚ) ≤ (mapEvalCore ⟨"BASIC", 20⟩ (some (1/2 : ℚ)) false 2 2
        [((some 1 : Option Nat), some true), (some 2, some false)] none).percentSuccess) :=
  ⟨rfl, (mostly_threshold_success_law (Option Nat) ⟨"BASIC", 20⟩ (some (1/2 : ℚ))
    false 2 2 [((some 1 : Option Nat), some true), (some 2, some false)] none).2.1
    (1/2 : ℚ) rfl⟩

/-- C5: for the null / not-null expectations no rows are excluded from the
denominator (`nonnull_count == element_count`) and the returned report carries
none of `missing_count`, `missing_percent`, `unexpected_percent_nonmissing`,
`partial_unexpected_counts`. -/
theorem missingness_omission :
    ∀ (V : Type) [DecidableEq V] (funcName : String)
      (func : List (Option V) → Except EvalError (List (Option V × Option Bool)))
      (column : List (Option V)) (mostly : Option ℚ) (rf : ResultFormat)
      (reformat : Option (Option V → Option V)) (out : MapEvalOutput (Option V)),
      (funcName = "expect_column_values_to_not_be_null" ∨
        funcName = "expect_column_values_to_be_null") →
      (evalColumnMapExpectation funcName func column mostly rf reformat).result =
        .ok out →
      out.nonnullCount = out.elementCount ∧
      out.report.missing_count = none ∧
      out.report.missing_percent = none ∧
      out.report.unexpected_percent_nonmissing = none ∧
      out.report.partial_unexpected_counts = none := by
  intro V inst funcName func column mostly rf reformat out hname h
  have hb : decide (funcName ∈ nullExpectationNames) = true := by
    rcases hname with h1 | h1 <;> subst h1 <;> rfl
  rcases hfe : func (if decide (funcName ∈ nullExpectationNames) then column
      else column.filter (fun v => v.isSome)) with e | sdf
  · rw [evalColumnMap_error_spec hfe] at h
    exact absurd h (by simp)
  · rw [evalColumnMap_ok_spec hfe] at h
    simp only [Except.ok.injEq] at h
    subst h
    simp only [hb, if_true]
    exact ⟨rfl, rfl, rfl, rfl, rfl⟩

/-- C5 witness: a concrete `expect_column_values_to_be_null` run over `[1, null]`
with SUMMARY format. -/
theorem missingness_omission_witness :
    (("expect_column_values_to_be_null" = "expect_column_values_to_not_be_null") ∨
      ("expect_column_values_to_be_null" = "expect_column_values_to_be_null")) ∧
    (evalColumnMapExpectation "expect_column_values_to_be_null"
        expect_column_values_to_be_null [some 1, none] none ⟨"SUMMARY", 20⟩
        none).result =
      .ok (mapEvalCore ⟨"SUMMARY", 20⟩ none true 2 2
        [((some 1 : Option Nat), some false), (none, some true)] none) ∧
    ((mapEvalCore ⟨"SUMMARY", 20⟩ none true 2 2
        [((some 1 : Option Nat), some false), (none, some true)] none).nonnullCount =
      (mapEvalCore ⟨"SUMMARY", 20⟩ none true 2 2
        [((some 1 : Option Nat), some false), (none, some true)] none).elementCount ∧
      (mapEvalCore ⟨"SUMMARY", 20⟩ none true 2 2
        [((some 1 : Option Nat), some false),
          (none, some true)] none).report.missing_count = none ∧
      (mapEvalCore ⟨"SUMMARY", 20⟩ none true 2 2
        [((some 1 : Option Nat), some false),
          (none, some true)] none).report.missing_percent = none ∧
      (mapEvalCore ⟨"SUMMARY", 20⟩ none true 2 2
        [((some 1 : Option Nat), some false),
          (none, some true)] none).report.unexpected_percent_nonmissing = none ∧
      (mapEvalCore ⟨"SUMMARY", 20⟩ none true 2 2
        [((some 1 : Option Nat), some false),
          (none, some true)] none).report.partial_unexpected_counts = none) :=
  ⟨Or.inr rfl, rfl,
    missingness_omission Nat "expect_column_values_to_be_null"
      expect_column_values_to_be_null [some 1, none] none ⟨"SUMMARY", 20⟩ none
      (mapEvalCore ⟨"SUMMARY", 20⟩ none true 2 2
        [((some 1 : Option Nat), some false), (none, some true)] none)
      (Or.inr rfl) rfl⟩

/-- C10: calling `expect_column_values_to_be_in_set` with `value_set=None` marks
every row successful without inspecting any value (the body returns a constant
all-true `__success` column), so for any valid `mostly` the evaluation reports
`success=True`, `unexpected_count=0` and an empty evidence list. -/
theorem value_set_none_vacuous_success :
    ∀ (V : Type) [DecidableEq V] (column : List (Option V)) (mostly : Option ℚ)
      (rf : ResultFormat) (reformat : Option (Option V → Option V)),
      (∀ m, mostly = some m → m ≤ 1) →
      (∀ rows, expect_column_values_to_be_in_set (V := V) none none rows =
        .ok (rows.map (fun v => (v, some true)))) ∧
      ∃ out,
        (evalColumnMapExpectation "expect_column_values_to_be_in_set"
          (expect_column_values_to_be_in_set none none) column mostly rf
          reformat).result = .ok out ∧
        out.successVal = true ∧ out.unexpectedCount = 0 ∧ out.unexpectedList = [] := by
  intro V inst column mostly rf reformat hm
  refine ⟨fun rows => rfl, ?_⟩
  have hb : decide ("expect_column_values_to_be_in_set" ∈ nullExpectationNames) =
      false := rfl
  have hf : expect_column_values_to_be_in_set (V := V) none none
      (if decide ("expect_column_values_to_be_in_set" ∈ nullExpectationNames) then
        column else column.filter (fun v => v.isSome)) =
      .ok ((if decide ("expect_column_values_to_be_in_set" ∈ nullExpectationNames)
          then column else column.filter (fun v => v.isSome)).map
        (fun v => (v, some true))) := rfl
  rw [evalColumnMap_ok_spec hf]
  simp only [hb, Bool.false_eq_true, if_false]
  obtain ⟨h1, h2, h3⟩ := mapEvalCore_all_true_spec rf mostly false column.length
    (column.filter (fun v => v.isSome)) reformat hm
  exact ⟨_, rfl, h1, h2, h3⟩

/-- C10 witness: the vacuous-success law at the concrete column `[7, null, 8]`
with default `mostly` (unset). -/
theorem value_set_none_vacuous_success_witness :
    (∀ m, (none : Option ℚ) = some m → m ≤ 1) ∧
    ((∀ rows, expect_column_values_to_be_in_set (V := Nat) none none rows =
        .ok (rows.map (fun v => (v, some true)))) ∧
      ∃ out,
        (evalColumnMapExpectation "expect_column_values_to_be_in_set"
          (expect_column_values_to_be_in_set none none)
          [some 7, none, some 8] none ⟨"BASIC", 20⟩ none).result = .ok out ∧
        out.successVal = true ∧ out.unexpectedCount = 0 ∧ out.unexpectedList = []) :=
  ⟨fun _ hm => Option.noConfusion hm,
    value_set_none_vacuous_success Nat [some 7, none, some 8] none ⟨"BASIC", 20⟩
      none (fun _ hm => Option.noConfusion hm)⟩

theorem countP_false_add_true {ρ : Type} (sdf : List (ρ × Option Bool))
    (hflag : ∀ r ∈ sdf, r.2 = some true ∨ r.2 = some false) :
    (sdf.filter (fun r => r.2 = some false)).length +
      sdf.countP (fun r => r.2 = some true) = sdf.length := by
  induction sdf with
  | nil => rfl
  | cons r rest ih =>
    have hrest := ih (fun x hx => hflag x (List.mem_cons_of_mem _ hx))
    rcases hflag r (List.mem_cons_self ..) with h | h <;>
      simp [List.filter_cons, List.countP_cons, h] <;> omega

theorem computeUnexpectedList_length {ρ : Type} [DecidableEq ρ] (lim : Option Nat)
    (sdf : List (ρ × Option Bool)) (uc : Int) (refm : Option (ρ → ρ))
    (huc : uc ≠ 0) :
    (computeUnexpectedList lim sdf uc refm).length =
      (pyLimit lim (sdf.filter (fun r => r.2 = some false))).length := by
  unfold computeUnexpectedList
  rw [if_neg huc]
  cases refm <;> simp

/-- C2 counterexample: a SUMMARY evaluation whose `partial_unexpected_count` is 0.
The source's `if unexpected_count_limit:` is Python truthiness, so the cap is
skipped and the full unexpected list (length 2) is collected, while the claim
demands `min(unexpected_count, partial_unexpected_count) = 0`. -/
theorem truncation_law_counterexample :
    (evalColumnMapExpectation "expect_column_values_to_not_be_in_set"
        (expect_column_values_to_not_be_in_set [some 1, some 2])
        [some 1, (some 2 : Option Nat)] none ⟨"SUMMARY", 0⟩ none).result.toOption.map
        (fun o => (o.unexpectedCount, o.unexpectedList.length)) =
      some (2, 2) ∧
    ¬ ((2 : Nat) = min 2 (ResultFormat.mk "SUMMARY" 0).partialUnexpectedCount) :=
  ⟨rfl, by decide⟩

/-- C2 amended: in every map-style evaluation whose wrapped function yields one
two-valued `__success` flag per counted row and whose `unexpected_count` is
positive, the collected evidence has length `unexpected_count` under COMPLETE; for
BASIC or SUMMARY it has length `min(unexpected_count, partial_unexpected_count)`
when `partial_unexpected_count > 0`, but when `partial_unexpected_count = 0` the
cap is skipped (Python truthiness of the limit) and the full `unexpected_count`
elements are collected. -/
theorem truncation_law_amended :
    ∀ (ρ : Type) [DecidableEq ρ] (rf : ResultFormat) (mostly : Option ℚ)
      (b : Bool) (ec nc : Nat) (sdf : List (ρ × Option Bool))
      (refm : Option (ρ → ρ)),
      sdf.length = nc →
      (∀ r ∈ sdf, r.2 = some true ∨ r.2 = some false) →
      0 < (mapEvalCore rf mostly b ec nc sdf refm).unexpectedCount →
      (rf.resultFormat = "COMPLETE" →
        (mapEvalCore rf mostly b ec nc sdf refm).unexpectedList.length =
          (mapEvalCore rf mostly b ec nc sdf refm).unexpectedCount.toNat) ∧
      ((rf.resultFormat = "BASIC" ∨ rf.resultFormat = "SUMMARY") →
        (mapEvalCore rf mostly b ec nc sdf refm).unexpectedList.length =
          (if rf.partialUnexpectedCount = 0 then
            (mapEvalCore rf mostly b ec nc sdf refm).unexpectedCount.toNat
          else
            min (mapEvalCore rf mostly b ec nc sdf refm).unexpectedCount.toNat
              rf.partialUnexpectedCount)) := by
  intro ρ inst rf mostly b ec nc sdf refm hlen hflag hpos
  have hA := countP_false_add_true sdf hflag
  have hct : sdf.countP (fun r => r.2 = some true) ≤ sdf.length :=
    List.countP_le_length _
  have huc : (mapEvalCore rf mostly b ec nc sdf refm).unexpectedCount =
      (nc : Int) - (sdf.countP (fun r => r.2 = some true) : Int) := rfl
  have hucnat : (mapEvalCore rf mostly b ec nc sdf refm).unexpectedCount.toNat =
      (sdf.filter (fun r => r.2 = some false)).length := by
    rw [huc]
    omega
  have hlist : (mapEvalCore rf mostly b ec nc sdf refm).unexpectedList.length =
      (pyLimit
        (if rf.resultFormat = "COMPLETE" then none else some rf.partialUnexpectedCount)
        (sdf.filter (fun r => r.2 = some false))).length := by
    rw [mapEvalCore_unexpectedList_eq]
    exact computeUnexpectedList_length _ _ _ _ hpos.ne'
  constructor
  · intro hC
    rw [hlist, if_pos hC, hucnat]
    rfl
  · intro hBS
    have hnc : rf.resultFormat ≠ "COMPLETE" := by
      rcases hBS with h | h <;> rw [h] <;> decide
    rw [hlist, if_neg hnc, hucnat]
    by_cases hp : rf.partialUnexpectedCount = 0
    · rw [if_pos hp, hp]
      rfl
    · rw [if_neg hp]
      show (pyLimit (some rf.partialUnexpectedCount) _).length = _
      simp only [pyLimit]
      rw [if_neg hp, List.length_take, Nat.min_comm]

/-- C2 amended witness: a BASIC evaluation with `partial_unexpected_count = 1`
over two counted rows, both unexpected: the evidence is truncated to
`min 2 1 = 1`. -/
theorem truncation_law_amended_witness :
    (([((some 1 : Option Nat), (some false : Option Bool)),
        (some 2, some false)].length = 2) ∧
      (∀ r ∈ [((some 1 : Option Nat), (some false : Option Bool)),
        (some 2, some false)], r.2 = some true ∨ r.2 = some false) ∧
      0 < (mapEvalCore ⟨"BASIC", 1⟩ none false 2 2
        [((some 1 : Option Nat), some false), (some 2, some false)]
        none).unexpectedCount) ∧
    ((ResultFormat.mk "BASIC" 1).resultFormat = "COMPLETE" →
      (mapEvalCore ⟨"BASIC", 1⟩ none false 2 2
        [((some 1 : Option Nat), some false), (some 2, some false)]
        none).unexpectedList.length =
        (mapEvalCore ⟨"BASIC", 1⟩ none false 2 2
          [((some 1 : Option Nat), some false), (some 2, some false)]
          none).unexpectedCount.toNat) ∧
    (((ResultFormat.mk "BASIC" 1).resultFormat = "BASIC" ∨
        (ResultFormat.mk "BASIC" 1).resultFormat = "SUMMARY") →
      (mapEvalCore ⟨"BASIC", 1⟩ none false 2 2
        [((some 1 : Option Nat), some false), (some 2, some false)]
        none).unexpectedList.length =
        (if (ResultFormat.mk "BASIC" 1).partialUnexpectedCount = 0 then
          (mapEvalCore ⟨"BASIC", 1⟩ none false 2 2
            [((some 1 : Option Nat), some false), (some 2, some false)]
            none).unexpectedCount.toNat
        else
          min (mapEvalCore ⟨"BASIC", 1⟩ none false 2 2
            [((some 1 : Option Nat), some false), (some 2, some false)]
            none).unexpectedCount.toNat
            (ResultFormat.mk "BASIC" 1).partialUnexpectedCount)) :=
  ⟨⟨rfl, by decide, by decide⟩,
    truncation_law_amended (Option Nat) ⟨"BASIC", 1⟩ none false 2 2
      [((some 1 : Option Nat), some false), (some 2, some false)] none rfl
      (by decide) (by decide)⟩

/-- C9 counterexample: an exit path on which the pinned view is NOT released.
`expect_column_values_to_be_in_set` raises (a `None` in the value set) after
`col_df.persist()`, and the decorator has no `try/finally`, so the invocation
exits with the view still pinned. -/
theorem view_release_counterexample :
    (evalColumnMapExpectation "expect_column_values_to_be_in_set"
        (expect_column_values_to_be_in_set (some [(none : Option Nat)]) none)
        [some 1] none ⟨"BASIC", 20⟩ none).result =
      .error EvalError.unsupportedValue ∧
    (evalColumnMapExpectation "expect_column_values_to_be_in_set"
        (expect_column_values_to_be_in_set (some [(none : Option Nat)]) none)
        [some 1] none ⟨"BASIC", 20⟩ none).viewPinnedAtExit = true :=
  ⟨rfl, rfl⟩

/-- C9 amended: in each of the three map decorators the persisted/cached view is
released on every *normal* exit path, but on every error path reached after the
view is pinned (the wrapped function raising, or an unknown `ignore_row_if`) the
view is not released. -/
theorem view_release_amended :
    (∀ (V : Type) [DecidableEq V] (funcName : String)
        (func : List (Option V) → Except EvalError (List (Option V × Option Bool)))
        (column : List (Option V)) (mostly : Option ℚ) (rf : ResultFormat)
        (reformat : Option (Option V → Option V)),
      (∀ out, (evalColumnMapExpectation funcName func column mostly rf
          reformat).result = .ok out →
        (evalColumnMapExpectation funcName func column mostly rf
          reformat).viewPinnedAtExit = false) ∧
      (∀ e, (evalColumnMapExpectation funcName func column mostly rf
          reformat).result = .error e →
        (evalColumnMapExpectation funcName func column mostly rf
          reformat).viewPinnedAtExit = true)) ∧
    (∀ (V : Type) [DecidableEq V]
        (func : List (Option V × Option V) →
          Except EvalError (List ((Option V × Option V) × Option Bool)))
        (rows : List (Option V × Option V)) (mostly : Option ℚ)
        (ignoreRowIf : String) (rf : ResultFormat)
        (reformat : Option ((Option V × Option V) → (Option V × Option V))),
      (∀ out, (evalColumnPairMapExpectation func rows mostly ignoreRowIf rf
          reformat).result = .ok out →
        (evalColumnPairMapExpectation func rows mostly ignoreRowIf rf
          reformat).viewPinnedAtExit = false) ∧
      (∀ e, (evalColumnPairMapExpectation func rows mostly ignoreRowIf rf
          reformat).result = .error e →
        (evalColumnPairMapExpectation func rows mostly ignoreRowIf rf
          reformat).viewPinnedAtExit = true)) ∧
    (∀ (V : Type) [DecidableEq V]
        (func : List (List (Option V)) →
          Except EvalError (List (List (Option V) × Option Bool)))
        (rows : List (List (Option V))) (mostly : Option ℚ) (ignoreRowIf : String)
        (rf : ResultFormat) (reformat : Option (List (Option V) → List (Option V))),
      (∀ out, (evalMulticolumnMapExpectation func rows mostly ignoreRowIf rf
          reformat).result = .ok out →
        (evalMulticolumnMapExpectation func rows mostly ignoreRowIf rf
          reformat).viewPinnedAtExit = false) ∧
      (∀ e, (evalMulticolumnMapExpectation func rows mostly ignoreRowIf rf
          reformat).result = .error e →
        (evalMulticolumnMapExpectation func rows mostly ignoreRowIf rf
          reformat).viewPinnedAtExit = true)) := by
  refine ⟨?_, ?_, ?_⟩
  · intro V inst funcName func column mostly rf reformat
    rcases hfe : func (if decide (funcName ∈ nullExpectationNames) then column
        else column.filter (fun v => v.isSome)) with e | sdf
    · rw [evalColumnMap_error_spec hfe]
      exact ⟨fun out h => absurd h (by simp), fun e h => rfl⟩
    · rw [evalColumnMap_ok_spec hfe]
      exact ⟨fun out h => rfl, fun e h => absurd h (by simp)⟩
  · intro V inst func rows mostly ignoreRowIf rf reformat
    rcases hpe : pairNullFlag (V := V) ignoreRowIf with e | nullVal
    · rw [evalColumnPairMap_policy_error_spec hpe]
      exact ⟨fun out h => absurd h (by simp), fun e h => rfl⟩
    · rcases hfe : func (rows.filter (fun r => !(nullVal r))) with e | sdf
      · rw [evalColumnPairMap_func_error_spec hpe hfe]
        exact ⟨fun out h => absurd h (by simp), fun e h => rfl⟩
      · rw [evalColumnPairMap_ok_spec hpe hfe]
        exact ⟨fun out h => rfl, fun e h => absurd h (by simp)⟩
  · intro V inst func rows mostly ignoreRowIf rf reformat
    rcases hpe : multicolumnNullFlag (V := V) ignoreRowIf with e | nullVal
    · rw [evalMulticolumnMap_policy_error_spec hpe]
      exact ⟨fun out h => absurd h (by simp), fun e h => rfl⟩
    · rcases hfe : func (rows.filter (fun r => !(nullVal r))) with e | sdf
      · rw [evalMulticolumnMap_func_error_spec hpe hfe]
        exact ⟨fun out h => absurd h (by simp), fun e h => rfl⟩
      · rw [evalMulticolumnMap_ok_spec hpe hfe]
        exact ⟨fun out h => rfl, fun e h => absurd h (by simp)⟩

/-- C9 amended witness: on a concrete successful `not_be_in_set` evaluation the
view is released at exit. -/
theorem view_release_amended_witness :
    (evalColumnMapExpectation "expect_column_values_to_not_be_in_set"
        (expect_column_values_to_not_be_in_set [some 9])
        [some 1, (some 2 : Option Nat)] none ⟨"BASIC", 20⟩
        none).viewPinnedAtExit = false :=
  (view_release_amended.1 Nat "expect_column_values_to_not_be_in_set"
      (expect_column_values_to_not_be_in_set [some 9])
      [some 1, (some 2 : Option Nat)] none ⟨"BASIC", 20⟩ none).1
    (mapEvalCore ⟨"BASIC", 20⟩ none false 2 2
      [((some 1 : Option Nat), some true), (some 2, some true)] none) rfl

/-- C7 counterexample: with `value_set = [1, 2, None]` the call does fail with the
unsupported-value error, but NOT before any query executes: the decorator's
row-count and nonnull-count queries have already run when the error is raised. -/
theorem in_set_null_value_counterexample :
    (evalColumnMapExpectation "expect_column_values_to_be_in_set"
        (expect_column_values_to_be_in_set
          (some [some 1, some 2, (none : Option Nat)]) none)
        [some 1] none ⟨"BASIC", 20⟩ none).result =
      .error EvalError.unsupportedValue ∧
    (evalColumnMapExpectation "expect_column_values_to_be_in_set"
        (expect_column_values_to_be_in_set
          (some [some 1, some 2, (none : Option Nat)]) none)
        [some 1] none ⟨"BASIC", 20⟩ none).queries =
      [QueryEvent.rowCountQ, QueryEvent.nonnullCountQ] ∧
    (evalColumnMapExpectation "expect_column_values_to_be_in_set"
        (expect_column_values_to_be_in_set
          (some [some 1, some 2, (none : Option Nat)]) none)
        [some 1] none ⟨"BASIC", 20⟩ none).queries ≠ [] :=
  ⟨rfl, rfl, by decide⟩

/-- C7 amended: for both set-membership expectations, a `None` inside the value
set makes the evaluation fail with the unsupported-value error before any
success-count or evidence-materialization query executes — but after the
decorator's row-count and nonnull-count queries have run (exactly those two
queries execute). -/
theorem in_set_null_value_amended :
    (∀ (V : Type) [DecidableEq V] (valueSet : List (Option V))
        (parseS : Option (V → V)) (column : List (Option V)) (mostly : Option ℚ)
        (rf : ResultFormat) (reformat : Option (Option V → Option V)),
      none ∈ valueSet →
      (evalColumnMapExpectation "expect_column_values_to_be_in_set"
          (expect_column_values_to_be_in_set (some valueSet) parseS) column mostly
          rf reformat).result = .error EvalError.unsupportedValue ∧
      (evalColumnMapExpectation "expect_column_values_to_be_in_set"
          (expect_column_values_to_be_in_set (some valueSet) parseS) column mostly
          rf reformat).queries =
        [QueryEvent.rowCountQ, QueryEvent.nonnullCountQ]) ∧
    (∀ (V : Type) [DecidableEq V] (valueSet : List (Option V))
        (column : List (Option V)) (mostly : Option ℚ) (rf : ResultFormat)
        (reformat : Option (Option V → Option V)),
      none ∈ valueSet →
      (evalColumnMapExpectation "expect_column_values_to_not_be_in_set"
          (expect_column_values_to_not_be_in_set valueSet) column mostly rf
          reformat).result = .error EvalError.unsupportedValue ∧
      (evalColumnMapExpectation "expect_column_values_to_not_be_in_set"
          (expect_column_values_to_not_be_in_set valueSet) column mostly rf
          reformat).queries =
        [QueryEvent.rowCountQ, QueryEvent.nonnullCountQ]) := by
  constructor
  · intro V inst valueSet parseS column mostly rf reformat hns
    have hferr : expect_column_values_to_be_in_set (V := V) (some valueSet) parseS
        (if decide ("expect_column_values_to_be_in_set" ∈ nullExpectationNames)
          then column else column.filter (fun v => v.isSome)) =
        .error EvalError.unsupportedValue := by
      cases parseS with
      | none => simp [expect_column_values_to_be_in_set, hns]
      | some p =>
        have hm : (none : Option V) ∈ valueSet.map (Option.map p) :=
          List.mem_map.mpr ⟨none, hns, rfl⟩
        simp [expect_column_values_to_be_in_set, hm]
    rw [evalColumnMap_error_spec hferr]
    exact ⟨rfl, rfl⟩
  · intro V inst valueSet column mostly rf reformat hns
    have hferr : expect_column_values_to_not_be_in_set (V := V) valueSet
        (if decide ("expect_column_values_to_not_be_in_set" ∈ nullExpectationNames)
          then column else column.filter (fun v => v.isSome)) =
        .error EvalError.unsupportedValue := by
      simp [expect_column_values_to_not_be_in_set, hns]
    rw [evalColumnMap_error_spec hferr]
    exact ⟨rfl, rfl⟩

/-- C7 amended witness: the value set `[1, 2, None]` on a concrete column. -/
theorem in_set_null_value_amended_witness :
    ((none : Option Nat) ∈ [some 1, some 2, (none : Option Nat)]) ∧
    ((evalColumnMapExpectation "expect_column_values_to_be_in_set"
        (expect_column_values_to_be_in_set
          (some [some 1, some 2, (none : Option Nat)]) none)
        [some 5, none] none ⟨"SUMMARY", 20⟩ none).result =
      .error EvalError.unsupportedValue ∧
    (evalColumnMapExpectation "expect_column_values_to_be_in_set"
        (expect_column_values_to_be_in_set
          (some [some 1, some 2, (none : Option Nat)]) none)
        [some 5, none] none ⟨"SUMMARY", 20⟩ none).queries =
      [QueryEvent.rowCountQ, QueryEvent.nonnullCountQ]) :=
  ⟨by decide,
    in_set_null_value_amended.1 Nat [some 1, some 2, (none : Option Nat)] none
      [some 5, none] none ⟨"SUMMARY", 20⟩ none (by decide)⟩

/-- C8 counterexample: for the plain column name `"x"` (which `F.col` resolves),
`get_domain_dataframe` projects the column under its ORIGINAL name, not the
normalized evaluation name: the normalization helper would produce
`"__eval_col_x"`, yet no column of that name exists in the returned view (the
source assigns `eval_column = column`, the `_get_eval_column_name` call being
commented out).  The null filter does apply.  A dotted name such as `"a.b"`
cannot exhibit the claimed projection either: there `F.col` parses nested-field
access and the call raises `AnalysisException` instead of returning a view. -/
theorem domain_column_name_counterexample :
    get_eval_column_name "x" = "__eval_col_x" ∧
    get_eval_column_name "x" ≠ "x" ∧
    get_domain_dataframe
        (SparkDF.mk [[("x", (some 1 : Option Nat))], [("x", none)]])
        (some "x") true =
      .ok (SparkDF.mk [[("x", some 1)]]) ∧
    ((SparkDF.mk [[("x", (some 1 : Option Nat))]]).rows.all
      (fun r => !(r.any (fun p => p.1 = "__eval_col_x")))) = true ∧
    get_domain_dataframe (SparkDF.mk [[("a.b", (some 1 : Option Nat))]])
        (some "a.b") true = .error EvalError.analysisException :=
  ⟨by decide, by decide, rfl, by decide, rfl⟩

/-- C8 amended: when a non-empty column whose raw name `F.col` can resolve on
the view (it exists and contains no dot or backtick) is present in the domain
kwargs, `get_domain_dataframe` projects that column into the view under its
*original* name — `rowSetCol r column (rowLookup r column)` for every source
row, with no name normalization applied — and, when `filter_column_isnull` is
requested, all rows where that column is null are dropped; when the raw name
does not resolve (a dotted or backticked name on these flat dataframes), the
call raises `AnalysisException` instead of returning a view. -/
theorem domain_column_projection_amended :
    ∀ (V : Type) (data : SparkDF V) (c : String), c ≠ "" →
      (colResolves data c = true →
        (∃ df, get_domain_dataframe data (some c) true = .ok df ∧
          (∀ r ∈ df.rows, (rowLookup r c).isSome = true) ∧
          (∀ r ∈ df.rows, ∃ r0 ∈ data.rows, r = rowSetCol r0 c (rowLookup r0 c))) ∧
        get_domain_dataframe data (some c) false = .ok (dfWithColumn data c c)) ∧
      (colResolves data c = false →
        get_domain_dataframe data (some c) true =
          .error EvalError.analysisException) := by
  intro V data c hc
  have hgd : ∀ (fl : Bool), get_domain_dataframe data (some c) fl =
      (if c = "" then .ok data
        else if colResolves data c then
          .ok (if fl then dfFilterNotNull (dfWithColumn data c c) c
            else dfWithColumn data c c)
        else .error EvalError.analysisException) := fun fl => rfl
  constructor
  · intro hres
    constructor
    · refine ⟨dfFilterNotNull (dfWithColumn data c c) c, ?_, ?_, ?_⟩
      · rw [hgd, if_neg hc, if_pos hres]
        rfl
      · intro r hr
        have := List.of_mem_filter hr
        simpa using this
      · intro r hr
        have hr2 : r ∈ (dfWithColumn data c c).rows := List.mem_of_mem_filter hr
        obtain ⟨r0, hr0, hr0e⟩ := List.mem_map.mp hr2
        exact ⟨r0, hr0, hr0e.symm⟩
    · rw [hgd, if_neg hc, if_pos hres]
      rfl
  · intro hres
    rw [hgd, if_neg hc, if_neg (by simp [hres])]

/-- C8 amended witness: a concrete dataframe with a resolvable column `"x"`,
one null row. -/
theorem domain_column_projection_amended_witness :
    ("x" ≠ "") ∧
    ((colResolves (SparkDF.mk [[("x", (some 1 : Option Nat))], [("x", none)]])
        "x" = true →
      (∃ df, get_domain_dataframe
          (SparkDF.mk [[("x", (some 1 : Option Nat))], [("x", none)]])
          (some "x") true = .ok df ∧
        (∀ r ∈ df.rows, (rowLookup r "x").isSome = true) ∧
        (∀ r ∈ df.rows,
          ∃ r0 ∈ (SparkDF.mk
              [[("x", (some 1 : Option Nat))], [("x", none)]]).rows,
            r = rowSetCol r0 "x" (rowLookup r0 "x"))) ∧
      get_domain_dataframe
          (SparkDF.mk [[("x", (some 1 : Option Nat))], [("x", none)]])
          (some "x") false =
        .ok (dfWithColumn
          (SparkDF.mk [[("x", (some 1 : Option Nat))], [("x", none)]])
          "x" "x")) ∧
    (colResolves (SparkDF.mk [[("x", (some 1 : Option Nat))], [("x", none)]])
        "x" = false →
      get_domain_dataframe
          (SparkDF.mk [[("x", (some 1 : Option Nat))], [("x", none)]])
          (some "x") true = .error EvalError.analysisException)) :=
  ⟨by decide,
    domain_column_projection_amended Nat
      (SparkDF.mk [[("x", (some 1 : Option Nat))], [("x", none)]])
      "x" (by decide)⟩

theorem collectAggregates_error_of_not_bundlable {C : Type} :
    ∀ (entries : List (ResolveEntry C)) (gs : List (AggGroup C)),
      (∃ e ∈ entries, e.canBeBundled = false) →
      collectAggregates entries gs =
        .error "batch_resolve only supports metrics that support bundled computation" := by
  intro entries
  induction entries with
  | nil =>
    rintro gs ⟨e, he, -⟩
    exact absurd he (List.not_mem_nil e)
  | cons e rest ih =>
    rintro gs ⟨e', he', hb⟩
    by_cases he : e.canBeBundled
    · rcases List.mem_cons.mp he' with rfl | hmem
      · rw [he] at hb
        cases hb
      · simp only [collectAggregates, if_pos he]
        exact ih _ ⟨e', hmem, hb⟩
    · simp only [collectAggregates, if_neg he]

theorem mem_ids_insertAggregate {C : Type} :
    ∀ (gs : List (AggGroup C)) (key : Kwargs) (c : C) (i : Nat),
      ∀ g ∈ insertAggregate gs key c i, ∀ j ∈ g.ids,
        (j = i ∧ g.key = key) ∨ ∃ g0 ∈ gs, g0.key = g.key ∧ j ∈ g0.ids := by
  intro gs
  induction gs with
  | nil =>
    intro key c i g hg j hj
    rw [insertAggregate] at hg
    rcases List.mem_singleton.mp hg with rfl
    rcases List.mem_singleton.mp hj with rfl
    exact Or.inl ⟨rfl, rfl⟩
  | cons g0 rest ih =>
    intro key c i g hg j hj
    rw [insertAggregate] at hg
    by_cases hk : g0.key = key
    · rw [if_pos hk] at hg
      rcases List.mem_cons.mp hg with rfl | hmem
      · rcases List.mem_append.mp hj with hj0 | hj1
        · exact Or.inr ⟨g0, List.mem_cons_self .., rfl, hj0⟩
        · rcases List.mem_singleton.mp hj1 with rfl
          exact Or.inl ⟨rfl, hk⟩
      · exact Or.inr ⟨g, List.mem_cons_of_mem _ hmem, rfl, hj⟩
    · rw [if_neg hk] at hg
      rcases List.mem_cons.mp hg with rfl | hmem
      · exact Or.inr ⟨g, List.mem_cons_self .., rfl, hj⟩
      · rcases ih key c i g hmem j hj with h | ⟨g1, hg1, hkey, hj1⟩
        · exact Or.inl h
        · exact Or.inr ⟨g1, List.mem_cons_of_mem _ hg1, hkey, hj1⟩

theorem collectAggregates_ids {C : Type} :
    ∀ (entries : List (ResolveEntry C)) (gs acc : List (AggGroup C)),
      collectAggregates entries acc = .ok gs →
      ∀ g ∈ gs, ∀ i ∈ g.ids,
        (∃ e ∈ entries, e.id = i ∧ stripColumn e.metricDomainKwargs = g.key) ∨
        ∃ g0 ∈ acc, g0.key = g.key ∧ i ∈ g0.ids := by
  intro entries
  induction entries with
  | nil =>
    intro gs acc h g hg i hi
    rw [collectAggregates] at h
    simp only [Except.ok.injEq] at h
    subst h
    exact Or.inr ⟨g, hg, rfl, hi⟩
  | cons e rest ih =>
    intro gs acc h g hg i hi
    by_cases he : e.canBeBundled
    · rw [collectAggregates, if_pos he] at h
      rcases ih gs _ h g hg i hi with ⟨e', he', hid, hkey⟩ | ⟨g0, hg0, hkey, hi0⟩
      · exact Or.inl ⟨e', List.mem_cons_of_mem _ he', hid, hkey⟩
      · rcases mem_ids_insertAggregate acc
          (stripColumn e.metricDomainKwargs) e.condition e.id g0 hg0 i hi0 with
          ⟨rfl, hk⟩ | ⟨g1, hg1, hk1, hi1⟩
        · exact Or.inl ⟨e, List.mem_cons_self .., rfl, hk.symm.trans hkey⟩
        · exact Or.inr ⟨g1, hg1, hk1.trans hkey, hi1⟩
    · rw [collectAggregates, if_neg he] at h
      cases h

theorem insertAggregate_keys {C : Type} :
    ∀ (gs : List (AggGroup C)) (key : Kwargs) (c : C) (i : Nat),
      (insertAggregate gs key c i).map (fun g => g.key) =
        if key ∈ gs.map (fun g => g.key) then gs.map (fun g => g.key)
        else gs.map (fun g => g.key) ++ [key] := by
  intro gs
  induction gs with
  | nil =>
    intro key c i
    simp [insertAggregate]
  | cons g0 rest ih =>
    intro key c i
    rw [insertAggregate]
    by_cases hk : g0.key = key
    · rw [if_pos hk]
      have : key ∈ (g0 :: rest).map (fun g => g.key) := by
        rw [← hk]
        exact List.mem_map_of_mem _ (List.mem_cons_self ..)
      rw [if_pos this]
      simp
    · rw [if_neg hk]
      have hne : key ∈ ((g0 :: rest).map (fun g => g.key)) ↔
          key ∈ rest.map (fun g => g.key) := by
        simp only [List.map_cons, List.mem_cons]
        constructor
        · rintro (h | h)
          · exact absurd h.symm hk
          · exact h
        · exact Or.inr
      by_cases hmem : key ∈ rest.map (fun g => g.key)
      · rw [if_pos (hne.mpr hmem)]
        simp only [List.map_cons, ih key c i, if_pos hmem]
      · rw [if_neg (fun hcon => hmem (hne.mp hcon))]
        simp only [List.map_cons, ih key c i, if_neg hmem]
        simp

theorem collectAggregates_keys_nodup {C : Type} :
    ∀ (entries : List (ResolveEntry C)) (gs acc : List (AggGroup C)),
      collectAggregates entries acc = .ok gs →
      (acc.map (fun g => g.key)).Nodup → (gs.map (fun g => g.key)).Nodup := by
  intro entries
  induction entries with
  | nil =>
    intro gs acc h hnd
    rw [collectAggregates] at h
    simp only [Except.ok.injEq] at h
    subst h
    exact hnd
  | cons e rest ih =>
    intro gs acc h hnd
    by_cases he : e.canBeBundled
    · rw [collectAggregates, if_pos he] at h
      refine ih gs _ h ?_
      rw [insertAggregate_keys]
      by_cases hmem : stripColumn e.metricDomainKwargs ∈ acc.map (fun g => g.key)
      · rw [if_pos hmem]
        exact hnd
      · rw [if_neg hmem]
        rw [List.nodup_append]
        exact ⟨hnd, List.nodup_singleton _,
          fun a ha hb => hmem (by rwa [List.mem_singleton.mp hb] at ha)⟩
    · rw [collectAggregates, if_neg he] at h
      cases h

theorem resolveAggregates_count {C : Type} (agg : Kwargs → List C → List (List Int)) :
    ∀ (gs : List (AggGroup C)) (m : List (Nat × Int)) (q : Nat),
      resolveAggregates agg gs = .ok (m, q) → q = gs.length := by
  intro gs
  induction gs with
  | nil =>
    intro m q h
    rw [resolveAggregates] at h
    simp only [Except.ok.injEq, Prod.mk.injEq] at h
    obtain ⟨-, rfl⟩ := h
    rfl
  | cons g rest ih =>
    intro m q h
    rw [resolveAggregates] at h
    rcases hagg : agg g.key g.conditions with - | ⟨row, t⟩
    · simp only [hagg] at h
      exact Except.noConfusion h
    · cases t with
      | nil =>
        simp only [hagg] at h
        by_cases hlen : row.length = g.ids.length
        · rw [if_pos hlen] at h
          rcases hrest : resolveAggregates agg rest with s | mq
          · rw [hrest] at h
            exact Except.noConfusion h
          · obtain ⟨m', q'⟩ := mq
            rw [hrest] at h
            simp only [Except.ok.injEq, Prod.mk.injEq] at h
            obtain ⟨-, rfl⟩ := h
            rw [List.length_cons, ih m' q' hrest]
        · rw [if_neg hlen] at h
          exact Except.noConfusion h
      | cons r2 t2 =>
        simp only [hagg] at h
        exact Except.noConfusion h

theorem resolveAggregates_error_of_mismatch {C : Type}
    (agg : Kwargs → List C → List (List Int)) :
    ∀ (gs : List (AggGroup C)),
      (∃ g ∈ gs, ∃ row, agg g.key g.conditions = [row] ∧
        row.length ≠ g.ids.length) →
      ∃ s, resolveAggregates agg gs = .error s := by
  intro gs
  induction gs with
  | nil =>
    rintro ⟨g, hg, -⟩
    exact absurd hg (List.not_mem_nil g)
  | cons g rest ih =>
    rintro ⟨g', hg', row, hrow, hne⟩
    rcases List.mem_cons.mp hg' with rfl | hmem
    · refine ⟨"unexpected number of metrics returned", ?_⟩
      rw [resolveAggregates]
      simp only [hrow]
      rw [if_neg hne]
    · rcases hagg : agg g.key g.conditions with - | ⟨row0, t⟩
      · refine ⟨"all bundle-computed metrics must be single-value statistics", ?_⟩
        rw [resolveAggregates]
        simp only [hagg]
      · cases t with
        | nil =>
          by_cases hlen : row0.length = g.ids.length
          · obtain ⟨s, hs⟩ := ih ⟨g', hmem, row, hrow, hne⟩
            refine ⟨s, ?_⟩
            rw [resolveAggregates]
            simp only [hagg]
            rw [if_pos hlen, hs]
          · refine ⟨"unexpected number of metrics returned", ?_⟩
            rw [resolveAggregates]
            simp only [hagg]
            rw [if_neg hlen]
        | cons r2 t2 =>
          refine ⟨"all bundle-computed metrics must be single-value statistics", ?_⟩
          rw [resolveAggregates]
          simp only [hagg]

/-- C6: in `batch_resolve` (i) any non-bundlable pending entry makes the whole
call fail fast with the quoted assertion message; (ii) on success of the grouping
pass, every id in every group comes from a pending entry whose column-stripped
domain kwargs equal the group key, and the group keys are pairwise distinct;
(iii) exactly one aggregation query is issued per domain group (the query count of
a successful resolve equals the number of groups); (iv) whenever the single
aggregate row returned for some group has a number of values different from the
number of pending ids of that group, the call fails with an error. -/
theorem batch_resolve_invariants :
    (∀ (C : Type) (agg : Kwargs → List C → List (List Int))
        (entries : List (ResolveEntry C)),
      (∃ e ∈ entries, e.canBeBundled = false) →
      batch_resolve agg entries =
        .error "batch_resolve only supports metrics that support bundled computation") ∧
    (∀ (C : Type) (entries : List (ResolveEntry C)) (gs : List (AggGroup C)),
      collectAggregates entries [] = .ok gs →
      (∀ g ∈ gs, ∀ i ∈ g.ids,
        ∃ e ∈ entries, e.id = i ∧ stripColumn e.metricDomainKwargs = g.key) ∧
      (gs.map (fun g => g.key)).Nodup) ∧
    (∀ (C : Type) (agg : Kwargs → List C → List (List Int))
        (entries : List (ResolveEntry C)) (gs : List (AggGroup C))
        (m : List (Nat × Int)) (q : Nat),
      collectAggregates entries [] = .ok gs →
      batch_resolve agg entries = .ok (m, q) → q = gs.length) ∧
    (∀ (C : Type) (agg : Kwargs → List C → List (List Int))
        (entries : List (ResolveEntry C)) (gs : List (AggGroup C))
        (g : AggGroup C) (row : List Int),
      collectAggregates entries [] = .ok gs → g ∈ gs →
      agg g.key g.conditions = [row] → row.length ≠ g.ids.length →
      ∃ s, batch_resolve agg entries = .error s) := by
  refine ⟨?_, ?_, ?_, ?_⟩
  · intro C agg entries hex
    simp only [batch_resolve,
      collectAggregates_error_of_not_bundlable entries [] hex]
  · intro C entries gs hcol
    constructor
    · intro g hg i hi
      rcases collectAggregates_ids entries gs [] hcol g hg i hi with h | ⟨g0, hg0, -, -⟩
      · exact h
      · exact absurd hg0 (List.not_mem_nil g0)
    · exact collectAggregates_keys_nodup entries gs [] hcol (by simp)
  · intro C agg entries gs m q hcol hbr
    simp only [batch_resolve, hcol] at hbr
    exact resolveAggregates_count agg gs m q hbr
  · intro C agg entries gs g row hcol hg hrow hne
    obtain ⟨s, hs⟩ := resolveAggregates_error_of_mismatch agg gs ⟨g, hg, row, hrow, hne⟩
    refine ⟨s, ?_⟩
    simp only [batch_resolve, hcol, hs]

/-- C6 witness: (a) a single non-bundlable entry fails fast; (c) two bundlable
count conditions over the same stripped domain form one group, and one successful
resolve issues exactly one aggregation query. -/
theorem batch_resolve_invariants_witness :
    (batch_resolve (fun _ _ => ([] : List (List Int)))
        [ResolveEntry.mk 5 false (0 : Int) []] =
      .error "batch_resolve only supports metrics that support bundled computation") ∧
    ((1 : Nat) =
      [AggGroup.mk [("batch_id", "b")] [(10 : Int), 20] [1, 2]].length) :=
  ⟨batch_resolve_invariants.1 Int (fun _ _ => ([] : List (List Int)))
      [ResolveEntry.mk 5 false (0 : Int) []]
      ⟨ResolveEntry.mk 5 false (0 : Int) [], List.mem_cons_self .., rfl⟩,
    batch_resolve_invariants.2.2.1 Int (fun _ conds => [conds])
      [ResolveEntry.mk 1 true (10 : Int) [("batch_id", "b"), ("column", "x")],
        ResolveEntry.mk 2 true (20 : Int) [("batch_id", "b")]]
      [AggGroup.mk [("batch_id", "b")] [(10 : Int), 20] [1, 2]]
      [(1, 10), (2, 20)] 1 rfl rfl⟩

end SparkDFEE
